import Mathlib

/-!
Shallow embedding of the skimate-backend realtime core (chat fabric and
live location engine) with theorems checking the specification's claims.

Conventions of the embedding:
* The WARM relational store is modelled as Lean lists of records
  (`MessageRec`, `SessionRec`, friendship and group rows).
* The HOT store (Redis) is modelled as association lists from keys to
  values; LPUSH/LTRIM/EXPIRE/GEOADD/HMSET/SREM/ZREM become pure list
  operations on an explicit state record.
* JavaScript numbers carried by payloads are modelled as rationals
  (`ℚ`); timestamps as integers (epoch milliseconds).
* JavaScript truthiness of optional string arguments (the source guards
  `if (groupId)` etc.) is modelled by `truthy`: `some ""` is falsy.
* Fallible handlers return the acknowledgement record the gateway sends;
  a thrown exception caught by a handler's `catch` block is modelled by
  the corresponding `none`/failure branch.
-/

namespace SkiMate

/-- Association-list read: first pair whose key matches. -/
def alGet {α : Type} (l : List (String × α)) (k : String) : Option α :=
  (l.find? (fun p => p.1 == k)).map (fun p => p.2)

/-- Association-list write: replace the value under `k`, or append it. -/
def alSet {α : Type} (l : List (String × α)) (k : String) (v : α) :
    List (String × α) :=
  if l.any (fun p => p.1 == k) then
    l.map (fun p => if p.1 == k then (k, v) else p)
  else
    l ++ [(k, v)]

/-- JavaScript truthiness of an optional string argument: `undefined` and
the empty string are falsy, any other string is truthy. -/
def truthy : Option String → Bool
  | some s => s != ""
  | none => false

/-- `FriendshipStatus` from common/enums. -/
inductive FriendshipStatus where
  | pending
  | accepted
  | blocked
deriving DecidableEq

/-- A row of the `friendships` table. -/
structure Friendship where
  userId1 : String
  userId2 : String
  status : FriendshipStatus
deriving DecidableEq

/-- A group together with its membership rows (`group.members`). -/
structure GroupRec where
  id : String
  members : List String
deriving DecidableEq

/-- A row of the `users` table (the fields the core reads). -/
structure UserRec where
  id : String
  fullName : String
deriving DecidableEq

/-- The read-only WARM lookups the core performs: groups with members,
friendships, and user display names. -/
structure WarmDb where
  groups : List GroupRec
  friendships : List Friendship
  users : List UserRec
deriving DecidableEq

/-! ### ChatService -/

/-- A row of the `messages` table. -/
structure MessageRec where
  id : String
  senderId : String
  groupId : Option String := none
  recipientId : Option String := none
  content : String
  metadata : Option String := none
  readBy : List String := []
  sentAt : Int
deriving DecidableEq

/-- The serialized form LPUSHed onto `chat:{roomId}:messages`: the source
serializes only `{id, senderId, content, metadata, sentAt}`. -/
structure CachedMsg where
  id : String
  senderId : String
  content : String
  metadata : Option String
  sentAt : Int
deriving DecidableEq

/-- JSON.stringify of a message for the HOT cache list. -/
def serializeMsg (m : MessageRec) : CachedMsg :=
  { id := m.id, senderId := m.senderId, content := m.content,
    metadata := m.metadata, sentAt := m.sentAt }

/-- Parsing a cached entry back into a message
(`getRecentMessages` cache hit): absent columns default. -/
def toMessage (c : CachedMsg) : MessageRec :=
  { id := c.id, senderId := c.senderId, content := c.content,
    metadata := c.metadata, readBy := [], sentAt := c.sentAt }

def MESSAGE_CACHE_SIZE : Nat := 50

def MESSAGE_CACHE_TTL : Int := 3600

/-- `ChatService.getRoomId`.  `if (groupId)` is JS truthiness; the DM
branch sorts the two ids (`[userId1, recipientId].sort()`); when neither
branch applies the source throws (`none`). -/
def getRoomId (groupId userId1 recipientId : Option String) : Option String :=
  if truthy groupId then
    some ("group:" ++ groupId.getD "")
  else if truthy userId1 && truthy recipientId then
    let u := userId1.getD ""
    let r := recipientId.getD ""
    let a := if u < r then u else r
    let b := if u < r then r else u
    some ("dm:" ++ a ++ "_" ++ b)
  else
    none

/-- `ChatService.verifyRoomAccess`: group branch checks a membership row,
DM branch checks an ACCEPTED friendship in either direction, neither
branch gives `false`. -/
def verifyRoomAccess (db : WarmDb) (userId : String)
    (groupId recipientId : Option String) : Bool :=
  if truthy groupId then
    db.groups.any (fun g =>
      g.id == groupId.getD "" && g.members.contains userId)
  else if truthy recipientId then
    let r := recipientId.getD ""
    db.friendships.any (fun f =>
      ((f.userId1 == userId && f.userId2 == r) ||
        (f.userId1 == r && f.userId2 == userId)) &&
      f.status == FriendshipStatus.accepted)
  else
    false

/-- Mutable state touched by the chat handlers: WARM `messages`, the HOT
cache lists with their TTLs, the persistence queue (job ids), the set of
present `typing:{roomId}:{userId}` keys, and the log of room broadcasts. -/
structure ChatState where
  warm : List MessageRec
  cache : List (String × List CachedMsg)
  cacheTtl : List (String × Int)
  queue : List String
  typing : List String
  emits : List (String × MessageRec)
deriving DecidableEq

def emptyChatState : ChatState :=
  { warm := [], cache := [], cacheTtl := [], queue := [], typing := [],
    emits := [] }

/-- `ChatService.createMessage`.  The repository save happens first (id
and sentAt are server-assigned, modelled by `newId` and `now`); then
`getRoomId` is called — if it throws, the row is already inserted and the
exception propagates (`none` result with the save retained); otherwise
LPUSH + LTRIM(0,49) + EXPIRE(3600) on the cache key and a persistence job
is enqueued. -/
def createMessage (senderId content : String)
    (groupId recipientId metadata : Option String)
    (newId : String) (now : Int) (st : ChatState) :
    Option MessageRec × ChatState :=
  let msg : MessageRec :=
    { id := newId, senderId := senderId, groupId := groupId,
      recipientId := recipientId, content := content, metadata := metadata,
      readBy := [], sentAt := now }
  let stSaved := { st with warm := st.warm ++ [msg] }
  match getRoomId groupId (some senderId) recipientId with
  | none => (none, stSaved)
  | some roomId =>
    let cacheKey := "chat:" ++ roomId ++ ":messages"
    let cached := (alGet stSaved.cache cacheKey).getD []
    let cached := (serializeMsg msg :: cached).take MESSAGE_CACHE_SIZE
    (some msg,
      { stSaved with
        cache := alSet stSaved.cache cacheKey cached,
        cacheTtl := alSet stSaved.cacheTtl cacheKey MESSAGE_CACHE_TTL,
        queue := stSaved.queue ++ [newId] })

/-- Acknowledgement of `chat:send`. -/
structure SendAck where
  success : Bool
  messageId : Option String := none
  sentAt : Option Int := none
deriving DecidableEq

/-- Payload of `chat:send`. -/
structure SendPayload where
  groupId : Option String := none
  recipientId : Option String := none
  content : String
  metadata : Option String := none

/-- `ChatGateway.handleSendMessage`.  Resolves the roomId, creates and
caches the message, broadcasts `chat:message` to the room and clears the
sender's typing flag.  The source performs NO access check on this path
(`verifyRoomAccess` is called from `handleJoinRoom` only), so no `WarmDb`
is consulted. -/
def handleSendMessage (user : Option String) (data : SendPayload)
    (newId : String) (now : Int) (st : ChatState) : SendAck × ChatState :=
  match user with
  | none => ({ success := false }, st)
  | some userId =>
    match getRoomId data.groupId (some userId) data.recipientId with
    | none => ({ success := false }, st)
    | some roomId =>
      match createMessage userId data.content data.groupId data.recipientId
          data.metadata newId now st with
      | (none, stAfter) => ({ success := false }, stAfter)
      | (some msg, stAfter) =>
        let stAfter :=
          { stAfter with
            emits := stAfter.emits ++ [(roomId, { msg with readBy := [] })],
            typing := stAfter.typing.filter
              (fun k => k != "typing:" ++ roomId ++ ":" ++ userId) }
        ({ success := true, messageId := some msg.id,
           sentAt := some msg.sentAt }, stAfter)

/-- Stable insertion into a list already sorted by `sentAt` descending. -/
def insertDescBySentAt (m : MessageRec) : List MessageRec → List MessageRec
  | [] => [m]
  | x :: xs =>
    if m.sentAt > x.sentAt then m :: x :: xs
    else x :: insertDescBySentAt m xs

/-- `ORDER BY message.sentAt DESC` of the WARM fallback query. -/
def sortBySentAtDesc : List MessageRec → List MessageRec
  | [] => []
  | x :: xs => insertDescBySentAt x (sortBySentAtDesc xs)

/-- The WARM fallback query of `getRecentMessages`: filter by room
(group id, or sender/recipient in either direction), order by `sentAt`
descending, take `limit`. -/
def warmQuery (groupId userId recipientId : Option String) (limitN : Nat)
    (warm : List MessageRec) : List MessageRec :=
  let filtered :=
    if truthy groupId then
      warm.filter (fun m => m.groupId == some (groupId.getD ""))
    else if truthy userId && truthy recipientId then
      let u := userId.getD ""
      let r := recipientId.getD ""
      warm.filter (fun m =>
        (m.senderId == u && m.recipientId == some r) ||
        (m.senderId == r && m.recipientId == some u))
    else
      warm
  (sortBySentAtDesc filtered).take limitN

/-- `ChatService.getRecentMessages`.  Cache hit returns the cached tail
as-is (head = newest).  On a miss it queries WARM newest-first; if
non-empty it warms the cache by LPUSHing `messages.reverse()` in order
(so the head ends newest), LTRIMs to 50 and sets the TTL.  JavaScript's
`Array.prototype.reverse` mutates in place, so the final
`return messages.reverse()` reverses the SAME array a second time and
hands back the original newest-first order; the model makes the two
reversals explicit (`rev` and `rev.reverse`). -/
def getRecentMessages (groupId userId recipientId : Option String)
    (limitN : Nat) (st : ChatState) :
    Option (List MessageRec) × ChatState :=
  match getRoomId groupId userId recipientId with
  | none => (none, st)
  | some roomId =>
    let cacheKey := "chat:" ++ roomId ++ ":messages"
    let cachedMessages := ((alGet st.cache cacheKey).getD []).take limitN
    if cachedMessages.length > 0 then
      (some (cachedMessages.map toMessage), st)
    else
      let messages := warmQuery groupId userId recipientId limitN st.warm
      if messages.length > 0 then
        let rev := messages.reverse
        let newCache :=
          (rev.foldl (fun acc m => serializeMsg m :: acc)
            ((alGet st.cache cacheKey).getD [])).take MESSAGE_CACHE_SIZE
        (some rev.reverse,
          { st with
            cache := alSet st.cache cacheKey newCache,
            cacheTtl := alSet st.cacheTtl cacheKey MESSAGE_CACHE_TTL })
      else
        (some [], st)

/-- One entry of the `chat:history` acknowledgement: the gateway maps
each message to `{id, senderId, content, sentAt}`. -/
structure HistoryItem where
  id : String
  senderId : String
  content : String
  sentAt : Int
deriving DecidableEq

/-- Acknowledgement of `chat:history`. -/
structure HistoryAck where
  success : Bool
  messages : Option (List HistoryItem) := none
deriving DecidableEq

/-- `ChatGateway.handleGetHistory`: delegates to `getRecentMessages` with
`data.limit ?? 50` and maps the result onto wire items. -/
def handleGetHistory (user : Option String)
    (groupId recipientId : Option String) (limit? : Option Nat)
    (st : ChatState) : HistoryAck × ChatState :=
  match user with
  | none => ({ success := false }, st)
  | some userId =>
    match getRecentMessages groupId (some userId) recipientId
        (limit?.getD 50) st with
    | (none, st2) => ({ success := false }, st2)
    | (some messages, st2) =>
      ({ success := true,
         messages := some (messages.map (fun m =>
           { id := m.id, senderId := m.senderId, content := m.content,
             sentAt := m.sentAt })) }, st2)

/-- The per-row effect of `ChatService.markMessageAsRead`: the UPDATE
appends `userId` to `read_by` on the row whose id matches, guarded by
`NOT :userId = ANY("read_by")`. -/
def readStep (messageId userId : String) (m : MessageRec) : MessageRec :=
  if m.id == messageId && !(m.readBy.contains userId) then
    { m with readBy := m.readBy ++ [userId] }
  else
    m

/-- `ChatService.markMessageAsRead` over the WARM `messages` table. -/
def markMessageAsRead (messageId userId : String)
    (warm : List MessageRec) : List MessageRec :=
  warm.map (readStep messageId userId)

/-! ### LocationService, LocationGateway and LocationPingProcessor -/

/-- Payload of `location:ping` (proto `LocationPing`). -/
structure LocPing where
  latitude : ℚ
  longitude : ℚ
  altitude : ℚ
  speed : ℚ
  accuracy : ℚ
  heading : Option ℚ := none
  timestamp : Int
  sessionId : String
deriving DecidableEq

/-- A member of the `geo:users` geo set with its stored coordinates. -/
structure GeoMember where
  member : String
  lon : ℚ
  lat : ℚ
deriving DecidableEq

/-- A job on the `location-pings` queue (`persist-ping` payload). -/
structure PingJob where
  userId : String
  sessionId : String
  latitude : ℚ
  longitude : ℚ
  altitude : ℚ
  speed : ℚ
  accuracy : ℚ
  heading : Option ℚ
  timestamp : Int
deriving DecidableEq

/-- A row of the `ski_sessions` table (the fields the core touches). -/
structure SessionRec where
  id : String
  userId : String
  resortId : Option String := none
  totalVertical : ℚ := 0
  totalDistance : ℚ := 0
  maxSpeed : ℚ := 0
  startTime : Int
  endTime : Option Int := none
  isActive : Bool
deriving DecidableEq

/-- One element of a Redis GEORADIUS ... WITHDIST WITHCOORD reply.  The
reply (member, distance, coordinates) is produced by the external HOT
store, so handlers take it as an input. -/
structure GeoHit where
  member : String
  dist : ℚ
  lon : ℚ
  lat : ℚ
deriving DecidableEq

/-- An entry of `LocationService.findNearbyFriends`'s result. -/
structure NearbyFriend where
  friendId : String
  friendName : String
  distance : ℚ
  latitude : ℚ
  longitude : ℚ
deriving DecidableEq

/-- State touched by the location handlers: the HOT geo set, the
`location:{userId}` hashes with TTLs, the `connections:{userId}` sets,
the persistence queue, the gateway's in-process `lastPingTimestamps`
map, WARM `ski_sessions`, and the logs of emitted `location:update` /
`location:proximity` frames. -/
structure LocState where
  geo : List GeoMember
  locHash : List (String × LocPing)
  locTtl : List (String × Int)
  connections : List (String × List String)
  queue : List PingJob
  lastPing : List (String × Int)
  sessions : List SessionRec
  updates : List (String × String)
  proximities : List (String × String × ℚ)
deriving DecidableEq

def emptyLocState : LocState :=
  { geo := [], locHash := [], locTtl := [], connections := [], queue := [],
    lastPing := [], sessions := [], updates := [], proximities := [] }

def LOCATION_TTL_SECONDS : Int := 300

def THROTTLE_MS : Int := 1000

/-- GEOADD: upsert a member's coordinates in the geo set. -/
def geoUpsert (l : List GeoMember) (u : String) (lon lat : ℚ) :
    List GeoMember :=
  if l.any (fun g => g.member == u) then
    l.map (fun g => if g.member == u then { g with lon := lon, lat := lat }
      else g)
  else
    l ++ [{ member := u, lon := lon, lat := lat }]

/-- The accepted-friend ids loaded by `findNearbyFriends` (friendship
rows in either direction with status ACCEPTED). -/
def acceptedFriendIds (db : WarmDb) (userId : String) : List String :=
  (db.friendships.filter (fun f =>
    (f.userId1 == userId || f.userId2 == userId) &&
    f.status == FriendshipStatus.accepted)).map (fun f =>
      if f.userId1 == userId then f.userId2 else f.userId1)

/-- `LocationService.findNearbyFriends`: if the user has no accepted
friends return `[]` without querying HOT; otherwise filter the GEORADIUS
reply to friends other than the user and resolve each display name,
skipping members whose user row is missing. -/
def findNearbyFriends (db : WarmDb) (userId : String)
    (geoReply : List GeoHit) : List NearbyFriend :=
  let friendIds := acceptedFriendIds db userId
  if friendIds.length == 0 then
    []
  else
    (geoReply.filter (fun h =>
      friendIds.contains h.member && h.member != userId)).filterMap
      (fun h =>
        match db.users.find? (fun u => u.id == h.member) with
        | some friend =>
          some { friendId := h.member, friendName := friend.fullName,
                 distance := h.dist, latitude := h.lat, longitude := h.lon }
        | none => none)

/-- `LocationService.processLocationPing`: GEOADD the position, HMSET the
full ping into `location:{userId}` with a 300 s EXPIRE, enqueue a
`persist-ping` job, then compute the nearby friends.  No validation of
the payload is performed anywhere on this path. -/
def processLocationPing (db : WarmDb) (userId : String) (ping : LocPing)
    (geoReply : List GeoHit) (st : LocState) :
    List NearbyFriend × LocState :=
  let pingKey := "location:" ++ userId
  let job : PingJob :=
    { userId := userId, sessionId := ping.sessionId,
      latitude := ping.latitude, longitude := ping.longitude,
      altitude := ping.altitude, speed := ping.speed,
      accuracy := ping.accuracy, heading := ping.heading,
      timestamp := ping.timestamp }
  let st :=
    { st with
      geo := geoUpsert st.geo userId ping.longitude ping.latitude,
      locHash := alSet st.locHash pingKey ping,
      locTtl := alSet st.locTtl pingKey LOCATION_TTL_SECONDS,
      queue := st.queue ++ [job] }
  (findNearbyFriends db userId geoReply, st)

/-- Acknowledgement of `location:ping`. -/
structure PingAck where
  success : Bool
  throttled : Option Bool := none
deriving DecidableEq

/-- `LocationGateway.handleLocationPing`: fail when unauthenticated;
throttle when `now - lastPingTimestamps.get(client.id) ?? 0 < 1000`
(returning with NO state change and NOT updating the timestamp);
otherwise stamp the timestamp, process the ping, and fan out
`location:update` frames to each nearby friend's sockets plus a
`location:proximity` frame to the pinger when the distance is < 100 m. -/
def handleLocationPing (db : WarmDb) (user : Option String)
    (clientId : String) (now : Int) (data : LocPing)
    (geoReply : List GeoHit) (st : LocState) : PingAck × LocState :=
  match user with
  | none => ({ success := false }, st)
  | some userId =>
    let lastPing := (alGet st.lastPing clientId).getD 0
    if now - lastPing < THROTTLE_MS then
      ({ success := false, throttled := some true }, st)
    else
      let st := { st with lastPing := alSet st.lastPing clientId now }
      let res := processLocationPing db userId data geoReply st
      let st := res.2
      let st := res.1.foldl (fun acc friend =>
        let sockets := (alGet acc.connections friend.friendId).getD []
        let acc :=
          { acc with updates := acc.updates ++
            sockets.map (fun s => (s, userId)) }
        if friend.distance < 100 then
          { acc with proximities := acc.proximities ++
            [(clientId, friend.friendId, friend.distance)] }
        else acc) st
      ({ success := true }, st)

/-- The first WARM statement of `LocationService.startSession`:
`update({userId, isActive: true}, {isActive: false, endTime: now})`. -/
def closePriorActive (userId : String) (now : Int)
    (sessions : List SessionRec) : List SessionRec :=
  sessions.map (fun s =>
    if s.userId == userId && s.isActive then
      { s with isActive := false, endTime := some now }
    else s)

/-- The second WARM statement of `LocationService.startSession`:
`save(create({userId, resortId, startTime: now, isActive: true}))`. -/
def insertNewSession (userId : String) (resortId : Option String)
    (newId : String) (now : Int) (sessions : List SessionRec) :
    List SessionRec :=
  let created : SessionRec :=
    { id := newId, userId := userId, resortId := resortId,
      startTime := now, endTime := none, isActive := true }
  sessions ++ [created]

/-- `LocationService.startSession` runs the two statements in sequence;
they are two separate repository calls (two suspension points), not one
WARM transaction. -/
def startSession (userId : String) (resortId : Option String)
    (newId : String) (now : Int) (sessions : List SessionRec) :
    List SessionRec :=
  insertNewSession userId resortId newId now
    (closePriorActive userId now sessions)

/-- Number of sessions of `userId` with the active flag set. -/
def activeCount (userId : String) (sessions : List SessionRec) : Nat :=
  (sessions.filter (fun s => s.userId == userId && s.isActive)).length

/-- `LocationService.handleUserDisconnect`: the source only ZREMs the
user from `geo:users` (`location:{userId}` and the session rows are not
touched). -/
def handleUserDisconnect (userId : String) (st : LocState) : LocState :=
  { st with geo := st.geo.filter (fun g => g.member != userId) }

/-- `LocationGateway.handleDisconnect`: SREM the socket from
`connections:{userId}`; if SCARD is then 0, notify
`handleUserDisconnect`; finally drop the socket's entry from the
in-process `lastPingTimestamps` map. -/
def handleDisconnect (user : Option String) (clientId : String)
    (st : LocState) : LocState :=
  let st :=
    match user with
    | none => st
    | some userId =>
      let conns := ((alGet st.connections userId).getD []).erase clientId
      let st := { st with connections := alSet st.connections userId conns }
      if conns.length == 0 then handleUserDisconnect userId st else st
  { st with lastPing := st.lastPing.filter (fun p => p.1 != clientId) }

/-- The body of `updateSessionStats`'s loop (`for i = 1; i < length`):
walks successive pairs accumulating (additionalDistance, maxSpeed,
verticalDescent).  `dist` stands for the processor's private
`haversineDistance` (its exact real value is irrelevant to the fields
the claims inspect, and real trigonometry has no computable form). -/
def statsLoop (dist : ℚ → ℚ → ℚ → ℚ → ℚ) (prev : PingJob)
    (rest : List PingJob) (acc : ℚ × ℚ × ℚ) : ℚ × ℚ × ℚ :=
  match rest with
  | [] => acc
  | curr :: tail =>
    let d := acc.1 +
      dist prev.latitude prev.longitude curr.latitude curr.longitude
    let ms := if curr.speed > acc.2.1 then curr.speed else acc.2.1
    let v := if curr.altitude < prev.altitude then
        acc.2.2 + (prev.altitude - curr.altitude)
      else acc.2.2
    statsLoop dist curr tail (d, ms, v)

/-- `LocationPingProcessor.updateSessionStats`: load the session (return
unchanged if absent), accumulate over the ping group starting the loop
at index 1 with `maxSpeed` initialized to the stored value, then issue
one WARM update.  Note the loop compares `curr.speed` only for `i ≥ 1`:
the group's first ping never enters the max. -/
def updateSessionStats (dist : ℚ → ℚ → ℚ → ℚ → ℚ) (sessionId : String)
    (pings : List PingJob) (sessions : List SessionRec) :
    List SessionRec :=
  match sessions.find? (fun s => s.id == sessionId) with
  | none => sessions
  | some session =>
    let acc :=
      match pings with
      | [] => ((0 : ℚ), session.maxSpeed, (0 : ℚ))
      | p0 :: rest => statsLoop dist p0 rest (0, session.maxSpeed, 0)
    sessions.map (fun s =>
      if s.id == sessionId then
        { s with
          totalDistance := s.totalDistance + acc.1,
          totalVertical := s.totalVertical + acc.2.2,
          maxSpeed := acc.2.1 }
      else s)

/-! ### The persister's haversine distance (real-valued embedding)

JavaScript floating point trigonometry is embedded over `ℝ`; the
comparison the numerical claim makes is between the processor's
`atan2`-based formula and the specification's closed `asin` form. -/

/-- JavaScript `Math.atan2(y, x)` over the reals (the signed-zero and
infinity distinctions of IEEE 754 do not exist in `ℝ`). -/
noncomputable def atan2 (y x : ℝ) : ℝ :=
  if 0 < x then Real.arctan (y / x)
  else if x < 0 then
    (if 0 ≤ y then Real.arctan (y / x) + Real.pi
     else Real.arctan (y / x) - Real.pi)
  else
    (if 0 < y then Real.pi / 2
     else if y < 0 then -(Real.pi / 2)
     else 0)

/-- `LocationPingProcessor.toRad`. -/
noncomputable def toRad (deg : ℝ) : ℝ :=
  deg * (Real.pi / 180)

/-- `LocationPingProcessor.haversineDistance`, literally as coded:
`R = 6371000`, `a` from the half-angle sines, and
`c = 2 * atan2(sqrt a, sqrt (1 - a))`. -/
noncomputable def haversineDistance (lat1 lon1 lat2 lon2 : ℝ) : ℝ :=
  let R : ℝ := 6371000
  let dLat := toRad (lat2 - lat1)
  let dLon := toRad (lon2 - lon1)
  let a := Real.sin (dLat / 2) * Real.sin (dLat / 2) +
    Real.cos (toRad lat1) * Real.cos (toRad lat2) *
      Real.sin (dLon / 2) * Real.sin (dLon / 2)
  let c := 2 * atan2 (Real.sqrt a) (Real.sqrt (1 - a))
  R * c

/-- The closed-form haversine of the specification:
`2R · asin(√(sin²(Δφ/2) + cos φ₁ · cos φ₂ · sin²(Δλ/2)))` with
`R = 6371000` and φ, λ in radians. -/
noncomputable def haversineClosedForm (lat1 lon1 lat2 lon2 : ℝ) : ℝ :=
  let R : ℝ := 6371000
  let phi1 := toRad lat1
  let phi2 := toRad lat2
  let h := Real.sin ((phi2 - phi1) / 2) ^ 2 +
    Real.cos phi1 * Real.cos phi2 *
      Real.sin ((toRad lon2 - toRad lon1) / 2) ^ 2
  2 * R * Real.arcsin (Real.sqrt h)

/-- For latitudes within ±90°, the haversine term is at most 1. -/
lemma havKernel_le_one (p1 p2 m : ℝ) (hc1 : 0 ≤ Real.cos p1)
    (hc2 : 0 ≤ Real.cos p2) :
    Real.sin ((p2 - p1) / 2) ^ 2 +
      Real.cos p1 * Real.cos p2 * Real.sin m ^ 2 ≤ 1 := by
  have f1 := Real.sin_sq ((p2 - p1) / 2)
  have f2 := Real.cos_sq ((p2 - p1) / 2)
  have harg : 2 * ((p2 - p1) / 2) = p2 - p1 := by ring
  rw [harg] at f2
  have f3 := Real.cos_sub p2 p1
  have f4 := Real.cos_add p2 p1
  have f5 := Real.cos_le_one (p2 + p1)
  have f6 : 0 ≤ Real.sin m ^ 2 := sq_nonneg _
  have f7 := Real.sin_sq_le_one m
  have f8 : 0 ≤ Real.cos p1 * Real.cos p2 := mul_nonneg hc1 hc2
  nlinarith [mul_nonneg f8 (sub_nonneg.mpr f7)]

/-- The haversine term is nonnegative when both cosines are. -/
lemma havKernel_nonneg (p1 p2 m : ℝ) (hc1 : 0 ≤ Real.cos p1)
    (hc2 : 0 ≤ Real.cos p2) :
    0 ≤ Real.sin ((p2 - p1) / 2) ^ 2 +
      Real.cos p1 * Real.cos p2 * Real.sin m ^ 2 := by
  have := mul_nonneg (mul_nonneg hc1 hc2) (sq_nonneg (Real.sin m))
  nlinarith [sq_nonneg (Real.sin ((p2 - p1) / 2))]

/-- A latitude in [-90, 90] degrees converts to a radian angle with
nonnegative cosine. -/
lemma cos_toRad_nonneg (lat : ℝ) (h : lat ∈ Set.Icc (-90 : ℝ) 90) :
    0 ≤ Real.cos (toRad lat) := by
  have hpi := Real.pi_pos
  refine Real.cos_nonneg_of_mem_Icc ⟨?_, ?_⟩
  · rw [toRad]
    nlinarith [h.1]
  · rw [toRad]
    nlinarith [h.2]

/-- On the first quadrant with `a < 1`, the processor's
`atan2(√a, √(1-a))` coincides exactly with `asin(√a)`. -/
lemma atan2_sqrt_eq_arcsin (a : ℝ) (h0 : 0 ≤ a) (hlt : a < 1) :
    atan2 (Real.sqrt a) (Real.sqrt (1 - a)) = Real.arcsin (Real.sqrt a) := by
  have hx : 0 < Real.sqrt (1 - a) := Real.sqrt_pos.mpr (by linarith)
  rw [atan2, if_pos hx]
  have hmem : Real.sqrt a ∈ Set.Ioo (-(1 : ℝ)) 1 := by
    constructor
    · have := Real.sqrt_nonneg a
      linarith
    · rw [Real.sqrt_lt' one_pos]
      nlinarith
  rw [Real.arcsin_eq_arctan hmem]
  congr 2
  rw [Real.sq_sqrt h0]

/-- Under the two formulas' shared haversine term being < 1 (and the
cosine signs of valid latitudes), the processor's `atan2` formula equals
the spec's `asin` closed form exactly. -/
lemma haversine_formulas_agree (lat1 lon1 lat2 lon2 : ℝ)
    (hc1 : 0 ≤ Real.cos (toRad lat1)) (hc2 : 0 ≤ Real.cos (toRad lat2))
    (hlt : Real.sin ((toRad lat2 - toRad lat1) / 2) ^ 2 +
      Real.cos (toRad lat1) * Real.cos (toRad lat2) *
        Real.sin ((toRad lon2 - toRad lon1) / 2) ^ 2 < 1) :
    haversineDistance lat1 lon1 lat2 lon2 =
      haversineClosedForm lat1 lon1 lat2 lon2 := by
  have hA0 : 0 ≤ Real.sin ((toRad lat2 - toRad lat1) / 2) ^ 2 +
      Real.cos (toRad lat1) * Real.cos (toRad lat2) *
        Real.sin ((toRad lon2 - toRad lon1) / 2) ^ 2 :=
    havKernel_nonneg _ _ _ hc1 hc2
  have hdLat : toRad (lat2 - lat1) = toRad lat2 - toRad lat1 := by
    unfold toRad
    ring
  have hdLon : toRad (lon2 - lon1) = toRad lon2 - toRad lon1 := by
    unfold toRad
    ring
  unfold haversineDistance haversineClosedForm
  simp only [hdLat, hdLon]
  have he : Real.sin ((toRad lat2 - toRad lat1) / 2) *
        Real.sin ((toRad lat2 - toRad lat1) / 2) +
      Real.cos (toRad lat1) * Real.cos (toRad lat2) *
        Real.sin ((toRad lon2 - toRad lon1) / 2) *
        Real.sin ((toRad lon2 - toRad lon1) / 2) =
      Real.sin ((toRad lat2 - toRad lat1) / 2) ^ 2 +
      Real.cos (toRad lat1) * Real.cos (toRad lat2) *
        Real.sin ((toRad lon2 - toRad lon1) / 2) ^ 2 := by
    ring
  rw [he]
  rw [atan2_sqrt_eq_arcsin _ hA0 hlt]
  ring

/-! ### Concrete scenarios used by the theorems -/

/-- A WARM database whose only group `g1` has `alice` as sole member. -/
def dbC1 : WarmDb :=
  { groups := [{ id := "g1", members := ["alice"] }], friendships := [],
    users := [] }

/-- A WARM database with no groups and one accepted friendship. -/
def friendAB : Friendship :=
  { userId1 := "ua", userId2 := "ub", status := FriendshipStatus.accepted }

def dbC10 : WarmDb :=
  { groups := [], friendships := [friendAB], users := [] }

/-- An empty WARM database. -/
def dbEmpty : WarmDb := { groups := [], friendships := [], users := [] }

/-- The outcome of `mallory` (not a member of `g1`) sending to `g1`. -/
def sendC1 : SendAck × ChatState :=
  handleSendMessage (some "mallory")
    { groupId := some "g1", content := "hi" } "m1" 1000 emptyChatState

/-- A message store with one message carrying one reader. -/
def msgW : MessageRec :=
  { id := "m1", senderId := "a", content := "hi", readBy := ["u0"],
    sentAt := 0 }

def msgsW : List MessageRec := [msgW]

/-- The older of two WARM messages of room `group:g1`. -/
def msgOld : MessageRec :=
  { id := "m1", senderId := "a", groupId := some "g1", content := "first",
    sentAt := 100 }

/-- The newer of two WARM messages of room `group:g1`. -/
def msgNew : MessageRec :=
  { id := "m2", senderId := "b", groupId := some "g1", content := "second",
    sentAt := 200 }

/-- Chat state with two WARM messages and an empty HOT cache. -/
def stC4 : ChatState := { emptyChatState with warm := [msgOld, msgNew] }

/-- `chat:history {limit: 50}` on the cold cache. -/
def histC4 : HistoryAck × ChatState :=
  handleGetHistory (some "a") (some "g1") none (some 50) stC4

/-- A WARM session table holding one active session of `u1`. -/
def sessionS0 : SessionRec :=
  { id := "s0", userId := "u1", startTime := 0, isActive := true }

def sessions0 : List SessionRec := [sessionS0]

/-- A syntactically valid ping. -/
def okPing : LocPing :=
  { latitude := 39, longitude := -105, altitude := 3000, speed := 5,
    accuracy := 5, timestamp := 0, sessionId := "s1" }

/-- A ping that violates the spec's validation rules: negative accuracy
and an empty sessionId. -/
def badPing : LocPing :=
  { latitude := 0, longitude := 0, altitude := 0, speed := 0,
    accuracy := -1, timestamp := 1000000, sessionId := "" }

/-- The invalid ping submitted through the gateway. -/
def pingC3 : PingAck × LocState :=
  handleLocationPing dbEmpty (some "u1") "c1" 1000000 badPing []
    emptyLocState

/-- First frame of the throttle trace, at t = 1 000 000 ms. -/
def pingT1 : PingAck × LocState :=
  handleLocationPing dbEmpty (some "u1") "c1" 1000000 okPing []
    emptyLocState

/-- Second frame, 900 ms after the first (throttled). -/
def pingT2 : PingAck × LocState :=
  handleLocationPing dbEmpty (some "u1") "c1" 1000900 okPing [] pingT1.2

/-- Third frame, 200 ms after the second. -/
def pingT3 : PingAck × LocState :=
  handleLocationPing dbEmpty (some "u1") "c1" 1001100 okPing [] pingT2.2

/-- A state where `u1` has full hot presence, one connection and one
active session. -/
def stC6 : LocState :=
  { emptyLocState with
    geo := [{ member := "u1", lon := -105, lat := 39 }],
    locHash := [("location:u1", okPing)],
    locTtl := [("location:u1", 300)],
    connections := [("u1", ["c1"])],
    sessions := sessions0 }

/-- The disconnect of `u1`'s only connection. -/
def discC6 : LocState := handleDisconnect (some "u1") "c1" stC6

/-- A session table whose session `s1` has stored maxSpeed 10. -/
def sessionS1 : SessionRec :=
  { id := "s1", userId := "u1", maxSpeed := 10, startTime := 0,
    isActive := true }

def sessionsC5 : List SessionRec := [sessionS1]

/-- First ping of the batch group: the fastest (20 m/s). -/
def jobA : PingJob :=
  { userId := "u1", sessionId := "s1", latitude := 39, longitude := -105,
    altitude := 3000, speed := 20, accuracy := 5, heading := none,
    timestamp := 0 }

/-- Second ping of the batch group (5 m/s). -/
def jobB : PingJob :=
  { userId := "u1", sessionId := "s1", latitude := 39.001,
    longitude := -105, altitude := 2990, speed := 5, accuracy := 5,
    heading := none, timestamp := 1000 }

/-! ### Helper lemmas -/

/-- Applying the read-receipt row update twice equals applying it once. -/
lemma readStep_idem (mid uid : String) (m : MessageRec) :
    readStep mid uid (readStep mid uid m) = readStep mid uid m := by
  unfold readStep
  split
  next h =>
    have hc : ((m.readBy ++ [uid]).contains uid) = true := by simp
    simp [hc]
  next h => simp [h]

/-- The read-receipt row update introduces no duplicate reader. -/
lemma readStep_nodup (mid uid : String) (m : MessageRec)
    (h : m.readBy.Nodup) : (readStep mid uid m).readBy.Nodup := by
  unfold readStep
  split
  next hc =>
    have hnotmem : uid ∉ m.readBy := by
      simp at hc
      exact hc.2
    simp [List.nodup_append, h, hnotmem]
  next => exact h

/-! ### Claim theorems -/

/-- C1: the claim says `chat:send` verifies the sender's access exactly
as `chat:join` does and denies with `{success:false}` without creating,
caching or broadcasting.  The source's `handleSendMessage` never calls
`verifyRoomAccess`: here `mallory` is not a member of group `g1`
(the access check answers `false`), yet the send succeeds, the message
row is inserted, the HOT cache key is written and the room broadcast is
emitted. -/
theorem sendMessage_skips_access_check :
    verifyRoomAccess dbC1 "mallory" (some "g1") none = false ∧
    sendC1.1.success = true ∧
    sendC1.2.warm.length = 1 ∧
    sendC1.2.emits.length = 1 ∧
    alGet sendC1.2.cache "chat:group:g1:messages" ≠ none := by
  decide

/-- C2: the claim says closing the prior active session and inserting
the new one form a single atomic WARM transaction, so no observation
shows two active sessions of one user.  The source's `startSession`
issues two separate awaited repository calls (`update` then `save`), so
two concurrent `session:start` calls of user `u1` may interleave as
close₁, close₂, insert₁, insert₂; the resulting WARM state holds TWO
active sessions of `u1`. -/
theorem concurrent_sessionStart_two_active :
    activeCount "u1"
      (insertNewSession "u1" none "s2" 1001
        (insertNewSession "u1" none "s1" 1000
          (closePriorActive "u1" 1001
            (closePriorActive "u1" 1000 sessions0)))) = 2 := by
  decide

/-- C3: the claim says a ping with negative accuracy or an empty
sessionId is rejected with `{success:false}` before any HOT write or
enqueue.  Neither `handleLocationPing` nor `processLocationPing`
validates the payload: `badPing` (accuracy −1, sessionId "") is
acknowledged `{success:true}`, the geo set and the location hash are
written and a persistence job is enqueued. -/
theorem invalid_ping_processed_without_validation :
    (badPing.accuracy < 0 ∧ badPing.sessionId = "") ∧
    pingC3.1 = { success := true } ∧
    pingC3.2.queue.length = 1 ∧
    pingC3.2.geo = [{ member := "u1", lon := 0, lat := 0 }] ∧
    alGet pingC3.2.locHash "location:u1" = some badPing := by
  decide

/-- C4: the claim says that on an empty HOT cache `chat:history`
returns the WARM messages oldest-first and then the HOT list holds them
newest-first.  The cache half holds, but the double in-place
`Array.reverse` makes the handler return the messages NEWEST-first
(`m2` before the older `m1`), contradicting the claimed chronological
order (and the source's own `Return in chronological order` comment). -/
theorem history_refill_returns_newest_first :
    histC4.1.success = true ∧
    histC4.1.messages =
      some [{ id := "m2", senderId := "b", content := "second",
              sentAt := 200 },
            { id := "m1", senderId := "a", content := "first",
              sentAt := 100 }] ∧
    alGet histC4.2.cache "chat:group:g1:messages" =
      some [serializeMsg msgNew, serializeMsg msgOld] := by
  decide

/-- C8: `chat:read` is idempotent — marking the same (messageId, userId)
twice leaves every `readBy` exactly as one marking does — and, when no
`readBy` holds duplicates, none does afterwards either (the UPDATE is
guarded by `NOT :userId = ANY(read_by)`). -/
theorem markMessageAsRead_idempotent (warm : List MessageRec)
    (mid uid : String) (h : ∀ m ∈ warm, m.readBy.Nodup) :
    markMessageAsRead mid uid (markMessageAsRead mid uid warm) =
      markMessageAsRead mid uid warm ∧
    ∀ m ∈ markMessageAsRead mid uid warm, m.readBy.Nodup := by
  constructor
  · unfold markMessageAsRead
    rw [List.map_map]
    apply List.map_congr_left
    intro m _
    exact readStep_idem mid uid m
  · intro m hm
    unfold markMessageAsRead at hm
    rcases List.mem_map.mp hm with ⟨m0, hm0, rfl⟩
    exact readStep_nodup mid uid m0 (h m0 hm0)

/-- C8 witness: the theorem applied to a concrete store. -/
theorem markMessageAsRead_idempotent_witness :
    markMessageAsRead "m1" "u1" (markMessageAsRead "m1" "u1" msgsW) =
      markMessageAsRead "m1" "u1" msgsW ∧
    ∀ m ∈ markMessageAsRead "m1" "u1" msgsW, m.readBy.Nodup :=
  markMessageAsRead_idempotent msgsW "m1" "u1" (by decide)

/-- C10 counterexample: the claim says that whenever both `groupId` and
`recipientId` are supplied, resolution takes the group branch and access
is checked by membership, never friendship.  JavaScript truthiness makes
the empty string falsy: with `groupId = ""` and `recipientId = "ub"`
supplied, `getRoomId` yields the DM room and `verifyRoomAccess` grants
access from a friendship though the database holds no group at all. -/
theorem emptyGroupId_takes_dm_branch :
    getRoomId (some "") (some "ua") (some "ub") = some "dm:ua_ub" ∧
    dbC10.groups = [] ∧
    verifyRoomAccess dbC10 "ua" (some "") (some "ub") = true := by
  have hlt : ("ua" : String) < "ub" := by
    simp
    decide
  refine ⟨?_, by decide, by decide⟩
  simp [getRoomId, truthy, hlt]

/-- C10 (amended): for every payload whose `groupId` is a NON-EMPTY
string, room resolution takes the group branch and yields
`group:{groupId}` whatever `recipientId` holds, and the access check is
exactly the group-membership query, independent of any friendship (an
empty-string groupId is falsy in JavaScript and is treated as absent). -/
theorem group_branch_wins_nonempty_groupId (db : WarmDb) (uid g : String)
    (u r : Option String) (hg : g ≠ "") :
    getRoomId (some g) u r = some ("group:" ++ g) ∧
    verifyRoomAccess db uid (some g) r =
      db.groups.any (fun gr => gr.id == g && gr.members.contains uid) := by
  have ht : truthy (some g) = true := by simp [truthy, hg]
  constructor
  · simp [getRoomId, ht]
  · simp [verifyRoomAccess, ht]

/-- C5: the claim says the per-group `maxSpeed` is the maximum of the
stored value and ALL the group's ping speeds, the first ping included.
The loop of `updateSessionStats` starts at index 1 and compares only
`curr.speed`, so the first ping's speed (20 m/s, the group maximum) is
never considered: with a stored maxSpeed of 10 the single WARM update
stores 10 where the claim requires 20.  The statement holds for every
haversine function `dist`, which the max-speed field never touches. -/
theorem updateSessionStats_skips_first_ping_speed
    (dist : ℚ → ℚ → ℚ → ℚ → ℚ) :
    (updateSessionStats dist "s1" [jobA, jobB] sessionsC5).map
      (fun s => s.maxSpeed) = [10] ∧
    jobA.speed = 20 ∧ sessionS1.maxSpeed = 10 ∧ (10 : ℚ) < 20 := by
  refine ⟨?_, by decide, by decide, by norm_num⟩
  simp [updateSessionStats, statsLoop, sessionsC5, sessionS1, jobA, jobB]
  norm_num

/-- C6 counterexample: the claim says that when the last connection of a
user closes, BOTH the geo member and the `location:{userId}` hash are
removed.  After `u1`'s only connection disconnects, the geo member is
gone but the full `location:u1` hash is still present (the source's
`handleUserDisconnect` issues only the ZREM); the session is indeed left
unended. -/
theorem disconnect_leaves_location_hash :
    alGet discC6.connections "u1" = some [] ∧
    discC6.geo = [] ∧
    alGet discC6.locHash "location:u1" = some okPing ∧
    discC6.sessions = stC6.sessions := by
  decide

/-- C6 (amended): when a connection closes and the user's
`connections:{userId}` set becomes empty, the system removes the user's
member from the `geo:users` geo set but leaves the `location:{userId}`
hash in place (it only disappears through its 5-minute TTL), and leaves
the user's active session not ended. -/
theorem full_disconnect_removes_geo_only (st : LocState) (u c : String)
    (h : ((alGet st.connections u).getD []).erase c = []) :
    (∀ g ∈ (handleDisconnect (some u) c st).geo, g.member ≠ u) ∧
    (handleDisconnect (some u) c st).locHash = st.locHash ∧
    (handleDisconnect (some u) c st).sessions = st.sessions := by
  unfold handleDisconnect handleUserDisconnect
  simp only [h]
  refine ⟨?_, by simp, by simp⟩
  intro g hg
  simp at hg
  simpa using hg.2

/-- C6 witness: the amended theorem applied to the concrete state. -/
theorem full_disconnect_removes_geo_only_witness :
    (∀ g ∈ (handleDisconnect (some "u1") "c1" stC6).geo,
      g.member ≠ "u1") ∧
    (handleDisconnect (some "u1") "c1" stC6).locHash = stC6.locHash ∧
    (handleDisconnect (some "u1") "c1" stC6).sessions = stC6.sessions :=
  full_disconnect_removes_geo_only stC6 "u1" "c1" (by decide)

/-- C7 counterexample: the claim quantifies over ANY two frames of the
same connection less than 1000 ms apart.  In the trace t = 1 000 000,
1 000 900, 1 001 100 ms, the second frame is throttled (and does not
refresh the timestamp), so the pair (1 000 900, 1 001 100) is 200 ms
apart yet the third frame is accepted and performs HOT writes (two jobs
queued in total). -/
theorem throttle_window_not_from_previous_frame :
    ((1001100 : Int) - 1000900 < 1000) ∧
    pingT2.1 = { success := false, throttled := some true } ∧
    pingT2.2 = pingT1.2 ∧
    pingT3.1 = { success := true } ∧
    pingT3.2.queue.length = 2 := by
  decide

/-- C7 (amended): the throttle window is measured from the last ACCEPTED
ping of the connection: whenever the connection's stored last-ping
timestamp is `t1` and an authenticated frame arrives at `now` with
`now − t1 < 1000` ms, the frame is acknowledged
`{success:false, throttled:true}` and the whole state — HOT presence,
queue, WARM sessions and the timestamp itself — is unchanged. -/
theorem throttled_ping_rejected_without_writes (db : WarmDb)
    (u clientId : String) (now t1 : Int) (data : LocPing)
    (geoReply : List GeoHit) (st : LocState)
    (hlast : alGet st.lastPing clientId = some t1)
    (hgap : now - t1 < 1000) :
    handleLocationPing db (some u) clientId now data geoReply st =
      ({ success := false, throttled := some true }, st) := by
  unfold handleLocationPing
  simp only [hlast, Option.getD_some, THROTTLE_MS]
  rw [if_pos hgap]

/-- C7 witness: the amended theorem applied to the concrete trace. -/
theorem throttled_ping_rejected_witness :
    handleLocationPing dbEmpty (some "u1") "c1" 1000900 okPing []
      pingT1.2 = ({ success := false, throttled := some true },
        pingT1.2) :=
  throttled_ping_rejected_without_writes dbEmpty "u1" "c1" 1000900
    1000000 okPing [] pingT1.2 (by decide) (by decide)

/-- C9: the persister's `haversineDistance` (the `atan2` form) agrees
with the closed-form haversine `2R·asin(√(sin²(Δφ/2) + cos φ₁ · cos φ₂ ·
sin²(Δλ/2)))`, R = 6 371 000 m, to within 1 m for every pair of valid
latitudes at most 10 km apart — in the real-number model the two are in
fact exactly equal there. -/
theorem haversine_matches_closed_form (lat1 lon1 lat2 lon2 : ℝ)
    (h1 : lat1 ∈ Set.Icc (-90 : ℝ) 90) (h2 : lat2 ∈ Set.Icc (-90 : ℝ) 90)
    (hnear : haversineClosedForm lat1 lon1 lat2 lon2 ≤ 10000) :
    |haversineDistance lat1 lon1 lat2 lon2 -
      haversineClosedForm lat1 lon1 lat2 lon2| ≤ 1 := by
  have hc1 := cos_toRad_nonneg lat1 h1
  have hc2 := cos_toRad_nonneg lat2 h2
  have hA1 : Real.sin ((toRad lat2 - toRad lat1) / 2) ^ 2 +
      Real.cos (toRad lat1) * Real.cos (toRad lat2) *
        Real.sin ((toRad lon2 - toRad lon1) / 2) ^ 2 ≤ 1 :=
    havKernel_le_one _ _ _ hc1 hc2
  have hspec : haversineClosedForm lat1 lon1 lat2 lon2 =
      2 * 6371000 * Real.arcsin (Real.sqrt
        (Real.sin ((toRad lat2 - toRad lat1) / 2) ^ 2 +
          Real.cos (toRad lat1) * Real.cos (toRad lat2) *
            Real.sin ((toRad lon2 - toRad lon1) / 2) ^ 2)) := by
    unfold haversineClosedForm
    rfl
  rcases lt_or_eq_of_le hA1 with hlt | heq
  · rw [haversine_formulas_agree lat1 lon1 lat2 lon2 hc1 hc2 hlt]
    simp
  · exfalso
    rw [hspec, heq, Real.sqrt_one, Real.arcsin_one] at hnear
    nlinarith [Real.pi_gt_three]

/-- C9 witness: the theorem applied at the coincident pair (0°, 0°). -/
theorem haversine_matches_closed_form_witness :
    |haversineDistance 0 0 0 0 - haversineClosedForm 0 0 0 0| ≤ 1 :=
  haversine_matches_closed_form 0 0 0 0
    (by norm_num [Set.mem_Icc]) (by norm_num [Set.mem_Icc])
    (by
      unfold haversineClosedForm toRad
      norm_num)

/-- C10 witness: the amended theorem applied at a concrete payload. -/
theorem group_branch_wins_witness :
    getRoomId (some "g1") (some "ua") (some "ub") = some "group:g1" ∧
    verifyRoomAccess dbC10 "ua" (some "g1") (some "ub") =
      dbC10.groups.any (fun gr =>
        gr.id == "g1" && gr.members.contains "ua") :=
  group_branch_wins_nonempty_groupId dbC10 "ua" "g1" (some "ua")
    (some "ub") (by decide)

end SkiMate
